import Mathlib

/-!
Shallow embedding of src/hat/sweep.py, the training orchestration script of
this repository, together with proofs about the claims of its specification.

The embedding keeps the source structure: pure computations of sweep.py become
Lean functions, the training loop becomes a structural recursion over the
epoch range and the per-epoch batch supply, fallible code returns Except, and
Python string primitives (split, strip, startswith, the in operator) are
modelled on character lists so that every definition is executable.
-/

namespace Sweep

/-- Integer ceiling division: math.ceil (a / b) for natural a and positive b,
as used at sweep.py lines 59-62. -/
def ceilDiv (a b : Nat) : Nat := (a + b - 1) / b

/-- os.path.join as used in sweep.py: path fragments joined with a slash. -/
def ospJoin : List String → String
  | [] => ""
  | [p] => p
  | p :: rest => p ++ "/" ++ ospJoin rest

/-- Python str.split with a one-character separator, on character lists.
For example splitting a=b at the equals sign yields the two parts a and b,
and splitting the empty text yields one empty part, as in Python. -/
def splitOnChar (c : Char) : List Char → List (List Char)
  | [] => [[]]
  | x :: xs =>
    let r := splitOnChar c xs
    if x = c then [] :: r
    else
      match r with
      | [] => [[x]]
      | y :: ys => (x :: y) :: ys

/-- Leading-segment test on character lists: true when the first list is an
initial segment of the second. Models Python str.startswith. -/
def isHeadSegment : List Char → List Char → Bool
  | [], _ => true
  | _ :: _, [] => false
  | a :: as, b :: bs => a == b && isHeadSegment as bs

/-- Substring containment on character lists: true when the pattern occurs
contiguously somewhere in the second list. Models the Python in operator
on strings. -/
def hasSegment (pat : List Char) : List Char → Bool
  | [] => pat.isEmpty
  | c :: cs => isHeadSegment pat (c :: cs) || hasSegment pat cs

/-- Python str.startswith on strings, via character lists. -/
def pyStartsWith (s pat : String) : Bool := isHeadSegment pat.toList s.toList

/-- Python substring containment (the in operator) on strings. -/
def pyContains (s pat : String) : Bool := hasSegment pat.toList s.toList

/-- Python str.strip: whitespace removed from both ends. -/
def pyStrip (s : List Char) : List Char :=
  ((s.dropWhile Char.isWhitespace).reverse.dropWhile Char.isWhitespace).reverse

/-! ### Training statistics and the training loop (sweep.py lines 43-79 and 336-403) -/

/-- The training configuration quantities that determine the loop shape:
number of train images, dataset_enlarge_ratio, batch_size_per_gpu,
world_size, and the configured total_iter. -/
structure TrainCfg where
  num_images : Nat
  dataset_enlarge_ratio : Nat
  batch_size_per_gpu : Nat
  world_size : Nat
  total_iter : Nat

/-- sweep.py lines 59-60: iterations required per epoch,
math.ceil (len(train_set) * enlarge_ratio / (batch_size_per_gpu * world_size)). -/
def num_iter_per_epoch (cfg : TrainCfg) : Nat :=
  ceilDiv (cfg.num_images * cfg.dataset_enlarge_ratio)
    (cfg.batch_size_per_gpu * cfg.world_size)

/-- sweep.py line 62: total_epochs = math.ceil (total_iters / num_iter_per_epoch). -/
def total_epochs (cfg : TrainCfg) : Nat :=
  ceilDiv cfg.total_iter (num_iter_per_epoch cfg)

/-- The inner while loop of train_pipeline, sweep.py lines 345-355, for one
epoch in which the prefetcher supplies the given number of batches. State is
current_iter; the result is the new current_iter paired with the number of
calls to model.optimize_parameters made in this epoch. Each batch first
increments current_iter (line 348); when the incremented counter exceeds
total_iters the loop breaks before optimizing (lines 349-350), otherwise the
model optimizes once (line 355). -/
def runEpochIters : Nat → Nat → Nat → Nat × Nat
  | 0, cur, _ => (cur, 0)
  | b + 1, cur, total =>
    if cur + 1 > total then (cur + 1, 0)
    else
      let r := runEpochIters b (cur + 1) total
      (r.1, r.2 + 1)

/-- The outer for loop of train_pipeline, sweep.py lines 340-343: the first
argument is how many epoch iterations remain; each one performs an epoch
boundary (train_sampler.set_epoch plus prefetcher.reset, lines 341-342) and
then runs the inner while loop over the per-epoch batches. Returns the final
current_iter, the number of epoch boundaries performed, and the total number
of optimize steps. -/
def runEpochs : Nat → Nat → Nat → Nat → Nat × Nat × Nat
  | 0, _, cur, _ => (cur, 0, 0)
  | e + 1, k, cur, total =>
    let r := runEpochIters k cur total
    let s := runEpochs e k r.1 total
    (s.1, s.2.1 + 1, r.2 + s.2.2)

/-- A fresh (non-resumed) run of the training loop, sweep.py line 340:
for epoch in range(0, total_epochs + 1) with current_iter starting at 0.
The prefetcher supplies num_iter_per_epoch batches per epoch, which is what
the training-statistics computation at lines 59-62 assumes. -/
def trainLoopFresh (cfg : TrainCfg) : Nat × Nat × Nat :=
  runEpochs (total_epochs cfg + 1) (num_iter_per_epoch cfg) 0 cfg.total_iter

/-! ### Periodic side effects inside the loop body (sweep.py lines 348-381) -/

/-- The side effects one executed loop iteration can fire. -/
structure IterEffects where
  logged : Bool
  saved_checkpoint : Bool
  validated : Bool

/-- One pass of the loop body at a given current_iter (already incremented,
line 348). When current_iter exceeds total_iters the body breaks before any
side effect (lines 349-350) and nothing fires. Otherwise the message logger
fires iff current_iter mod print_freq is zero (line 362), the checkpoint save
fires iff current_iter mod save_checkpoint_freq is zero (line 372), and the
validation pass fires iff a val section is configured and current_iter mod
val_freq is zero (line 377). -/
def loopIterBody (total_iters print_freq save_freq val_freq : Nat)
    (val_configured : Bool) (current_iter : Nat) : Option IterEffects :=
  if current_iter > total_iters then none
  else some
    { logged := current_iter % print_freq == 0
      saved_checkpoint := current_iter % save_freq == 0
      validated := val_configured && (current_iter % val_freq == 0) }

/-! ### Actions after the training loop exits (sweep.py lines 406-414) -/

/-- What train_pipeline does after the loop exits normally. -/
structure FinalActions where
  saved_latest : Bool
  save_epoch_arg : Int
  save_iter_arg : Int
  validated_loaders : List String
  closed_tb_logger : Bool

/-- sweep.py lines 406-414: after the loop, model.save(epoch=-1,
current_iter=-1) is called unconditionally (line 409); if a val section is
configured, model.validation runs once for every validation loader
(lines 410-412); the tensorboard logger is closed when active (413-414). -/
def afterTrainLoop (val_configured : Bool) (val_loaders : List String)
    (tb_logger_active : Bool) : FinalActions :=
  { saved_latest := true
    save_epoch_arg := -1
    save_iter_arg := -1
    validated_loaders := if val_configured then val_loaders else []
    closed_tb_logger := tb_logger_active }

/-! ### Debug-mode handling in parse_options (sweep.py lines 197-199, 229-234) -/

/-- The option fields touched by debug handling: the experiment name, the
val section with its val_freq when present, print_freq, and
save_checkpoint_freq. -/
structure FreqOpts where
  name : String
  val_freq : Option Nat
  print_freq : Nat
  save_checkpoint_freq : Nat

/-- sweep.py lines 198-199: when the debug flag is set and the configured name
does not already start with debug, the name is prefixed with debug_. -/
def applyDebugName (debug : Bool) (name : String) : String :=
  if debug && !(pyStartsWith name ("debug")) then ("debug_") ++ name else name

/-- sweep.py lines 230-234: when the (possibly renamed) experiment name
contains debug, val_freq is forced to 8 if a val section exists, print_freq
to 1, and save_checkpoint_freq to 8. -/
def applyDebugOverrides (opt : FreqOpts) : FreqOpts :=
  if pyContains opt.name ("debug") then
    { opt with
      val_freq := opt.val_freq.map (fun _ => 8)
      print_freq := 1
      save_checkpoint_freq := 8 }
  else opt

/-- The debug-relevant fragment of parse_options for a training run: the name
rewrite of lines 198-199 followed by the frequency overrides of
lines 229-234. -/
def parseOptionsDebug (debug : Bool) (opt : FreqOpts) : FreqOpts :=
  applyDebugOverrides { opt with name := applyDebugName debug opt.name }

/-! ### The config loader yaml_load (sweep.py lines 128-139) -/

/-- Malformedness test used by the YAML parser model: an opening flow-sequence
bracket that is never closed. -/
def yamlMalformed (s : String) : Bool :=
  isHeadSegment ("[").toList s.toList &&
    !(isHeadSegment ("]").toList s.toList.reverse)

/-- Modelled from the spec: yaml.load of the external PyYAML library, which is
not part of this repository. Per the spec the loader fails when the YAML is
malformed, modelled here as an unclosed flow sequence; any other text parses,
a bare name parsing as a plain string scalar. -/
def yamlParseModel (s : String) : Except String String :=
  if yamlMalformed s then .error ("ScannerError: malformed yaml") else .ok s

/-- sweep.py lines 128-139: yaml_load. The filesystem is a list of path and
content pairs; os.path.isfile is the lookup. When the argument names an
existing file its content is parsed, otherwise the argument itself is parsed
as literal YAML text. -/
def yaml_load (parse : String → Except String String)
    (files : List (String × String)) (f : String) : Except String String :=
  match files.lookup f with
  | some content => parse content
  | none => parse f

/-! ### Experiment paths, the collision loop, and the resume locator
(sweep.py lines 82-102, 221-227, 259-268) -/

/-- The path-related option fields set for a training run. -/
structure PathOpts where
  name : String
  experiments_root : String
  models : String
  training_states : String
  log : String
  visualization : String

/-- The candidate experiment directory tried by the collision loop of
train_pipeline: the base for index 0, and base_i for index i above 0, as
built at sweep.py line 263. -/
def candidateRoot (base : String) : Nat → String
  | 0 => base
  | n + 1 => base ++ "_" ++ toString (n + 1)

/-- The while loop of sweep.py lines 259-263: starting at index i, keep
incrementing while the candidate directory exists, within the given fuel.
The fuel bounds the number of loop tests, matching any finite filesystem. -/
def collisionRoot (existsFn : String → Bool) (base : String) : Nat → Nat → String
  | i, 0 => candidateRoot base i
  | i, fuel + 1 =>
    if existsFn (candidateRoot base i) then collisionRoot existsFn base (i + 1) fuel
    else candidateRoot base i

/-- The path options after parse_options lines 221-227 and the train_pipeline
collision rewrite of lines 259-268: every path field is rebuilt from the
collision-suffixed experiments root, while the name field is untouched. -/
def trainPipelinePaths (existsFn : String → Bool) (fuel : Nat)
    (root_path name : String) : PathOpts :=
  let base := ospJoin [root_path, ("experiments"), name]
  let root := collisionRoot existsFn base 0 fuel
  { name := name
    experiments_root := root
    models := ospJoin [root, ("models")]
    training_states := ospJoin [root, ("training_states")]
    log := root
    visualization := ospJoin [root, ("visualization")] }

/-- sweep.py line 85: the directory scanned by auto resume, built afresh from
the relative segment experiments, the configured experiment name, and
training_states. -/
def resumeScanDirOfName (name : String) : String :=
  ospJoin [("experiments"), name, ("training_states")]

/-- The scan directory of load_resume_state as a function of the full option
record: line 85 reads only the name field, none of the path fields. -/
def resumeScanDir (opt : PathOpts) : String := resumeScanDirOfName opt.name

/-- Checkpoint files are named iteration.state by the checkpoint saver, so a
state file is represented by its numeric prefix; this builds the filename
written at sweep.py line 90, where the prefix is formatted with no decimals. -/
def stateFileName (n : Nat) : String := toString n ++ (".state")

/-- Python max over the parsed numeric prefixes (sweep.py line 90); for a
nonempty list of naturals the fold from zero is the list maximum. -/
def maxState (states : List Nat) : Nat := states.foldl max 0

/-- sweep.py lines 82-94, the resume path selection. Under auto_resume the
training-states directory of the configured name is scanned; when it exists
and holds state files, the file whose parsed prefix is maximal is selected
(lines 88-91). Without auto_resume an explicitly configured resume path is
used if present (lines 92-94). -/
def load_resume_state_path (name : String) (auto_resume dir_exists : Bool)
    (states : List Nat) (explicit : Option String) : Option String :=
  if auto_resume then
    if dir_exists && (states.length != 0) then
      some (ospJoin [resumeScanDirOfName name, stateFileName (maxState states)])
    else none
  else explicit

/-! ### create_train_val_dataloader (sweep.py lines 43-79) -/

/-- sweep.py line 70: a dataset phase is val-like when the part of its name
before the first underscore equals val. -/
def valLike (phase : String) : Bool :=
  (splitOnChar '_' phase.toList).headD [] == ("val").toList

/-- The local variables of create_train_val_dataloader. train_loader and
val_loaders are initialized at line 45; train_sampler and the epoch and
iteration totals are only ever bound inside the train branch, so they are
Options that start out none. -/
structure CTVSt where
  train_loader : Option String
  train_sampler : Option String
  totals : Option (Nat × Nat)
  val_loaders : List String

/-- The state at sweep.py line 45: train_loader None, val_loaders empty,
train_sampler and the totals not yet bound. -/
def initCTVSt : CTVSt :=
  { train_loader := none, train_sampler := none, totals := none, val_loaders := [] }

/-- The for loop of create_train_val_dataloader, sweep.py lines 46-77. The
train branch (lines 47-69) binds the loader, the sampler, and the totals
computed from the configuration. A val-like phase (lines 70-75) appends a
validation loader. Any other phase raises ValueError (lines 76-77). -/
def processPhases (cfg : TrainCfg) : List String → CTVSt → Except String CTVSt
  | [], st => .ok st
  | p :: rest, st =>
    if p = ("train") then
      processPhases cfg rest
        { st with
          train_loader := some ("train_loader")
          train_sampler := some ("EnlargedSampler")
          totals := some (total_epochs cfg, cfg.total_iter) }
    else if valLike p then
      processPhases cfg rest { st with val_loaders := st.val_loaders ++ [p] }
    else .error (("Dataset phase ") ++ p ++ (" is not recognized."))

/-- create_train_val_dataloader, sweep.py lines 43-79. The return at line 79
evaluates the tuple left to right: train_loader is always bound, but when
train_sampler was never assigned Python raises UnboundLocalError there, so a
missing train phase makes the function fail instead of returning. -/
def create_train_val_dataloader (cfg : TrainCfg) (phases : List String) :
    Except String (Option String × String × List String × Nat × Nat) :=
  match processPhases cfg phases initCTVSt with
  | .error e => .error e
  | .ok st =>
    match st.train_sampler, st.totals with
    | some smp, some tot => .ok (st.train_loader, smp, st.val_loaders, tot.1, tot.2)
    | _, _ =>
      .error ("UnboundLocalError: local variable train_sampler referenced before assignment")

/-! ### The force_yml override path of parse_options (sweep.py lines 180-192) -/

/-- YAML values produced by type coercion of override strings. -/
inductive YamlValue where
  | s : String → YamlValue
  | b : Bool → YamlValue
  | n : Int → YamlValue
  | list : List YamlValue → YamlValue

/-- Decimal digits to a natural number. -/
def natOfDigits (l : List Char) : Nat :=
  l.foldl (fun acc c => acc * 10 + (c.toNat - 48)) 0

/-- Modelled from the spec: the scalar part of the framework helper
_postprocess_yml_value, which is not part of this repository. Per the spec an
override value is type-coerced, booleans and numbers parsed from text and
anything else kept as a string. Integer numerals are parsed here; other
numerals stay textual, which suffices because in sweep.py the call to this
helper never completes. -/
def coerceScalar (v : List Char) : YamlValue :=
  if v = ("true").toList then .b true
  else if v = ("false").toList then .b false
  else if (!v.isEmpty) && v.all Char.isDigit then .n (Int.ofNat (natOfDigits v))
  else .s (String.mk v)

/-- Modelled from the spec: the list part of the coercion, a bracketed
comma-separated sequence of scalars; anything else goes through the scalar
coercion. -/
def postprocessYmlValue (v : List Char) : YamlValue :=
  match v with
  | '[' :: rest =>
    if rest.getLast? = some ']' then
      .list ((splitOnChar ',' rest.dropLast).map (fun part => coerceScalar (pyStrip part)))
    else .s (String.mk v)
  | _ => coerceScalar v

/-- The names visible at sweep.py line 186: the module imports of lines 7-30,
the module-level definitions, and the locals of parse_options that are bound
before the force_yml loop runs. The framework helper _postprocess_yml_value
is absent: it is neither imported nor defined anywhere in the module. -/
def namesInScopeAtLine186 : List String :=
  [("archs"), ("data"), ("models"), ("wandb"), ("datetime"), ("logging"),
   ("math"), ("time"), ("torch"), ("os"), ("osp"), ("random"), ("yaml"),
   ("OrderedDict"), ("build_dataloader"), ("build_dataset"),
   ("EnlargedSampler"), ("CPUPrefetcher"), ("CUDAPrefetcher"), ("build_model"),
   ("AvgTimer"), ("MessageLogger"), ("check_resume"), ("get_env_info"),
   ("get_root_logger"), ("get_time_str"), ("init_tb_logger"),
   ("init_wandb_logger"), ("make_exp_dirs"), ("mkdir_and_rename"),
   ("scandir"), ("set_random_seed"), ("copy_opt_file"), ("dict2str"),
   ("get_dist_info"), ("init_dist"), ("init_tb_loggers"),
   ("create_train_val_dataloader"), ("load_resume_state"), ("ordered_yaml"),
   ("yaml_load"), ("parse_options"), ("train_pipeline"), ("argparse"),
   ("parser"), ("args"), ("opt"), ("seed"), ("entry"), ("keys"), ("value"),
   ("eval_str"), ("key")]

/-- Python name resolution for a bare identifier: a name not bound in any
visible scope raises NameError. -/
def resolvePyName (scope : List String) (n : String) : Except String Unit :=
  if n ∈ scope then .ok ()
  else .error (("NameError: name ") ++ n ++ (" is not defined"))

/-- One iteration of the force_yml loop, sweep.py lines 182-192. The entry is
split at the equals sign into exactly a key path and a value (line 184,
ValueError otherwise), both are stripped (line 185), then line 186 evaluates
the bare name _postprocess_yml_value and applies it; on success the key path
split at colons and the coerced value would be assigned into opt by exec
(lines 187-192). -/
def applyForceYmlEntry (scope : List String) (entry : String) :
    Except String (List String × YamlValue) :=
  match splitOnChar '=' entry.toList with
  | [keys, value] =>
    let keys := pyStrip keys
    let value := pyStrip value
    match resolvePyName scope ("_postprocess_yml_value") with
    | .error e => .error e
    | .ok _ =>
      .ok ((splitOnChar ':' keys).map (fun k => String.mk k), postprocessYmlValue value)
  | _ => .error ("ValueError: entry.split needs exactly one equals sign")

/-! ### Wandb session wiring (sweep.py lines 32-40 and 270-277) -/

/-- init_tb_loggers, sweep.py line 34: the framework wandb logger is
initialized only when the logger options hold a wandb section with a project
name and the experiment name does not contain debug. -/
def init_wandb_logger_called (has_wandb_project : Bool) (name : String) : Bool :=
  has_wandb_project && !(pyContains name ("debug"))

/-- train_pipeline, sweep.py lines 271-277: wandb.init is called whenever the
logger options hold a wandb section with a project name; there is no debug
guard in this call. -/
def pipeline_wandb_init_called (has_wandb_project : Bool) : Bool :=
  has_wandb_project

/-- A wandb session is started by the run when either the direct wandb.init
call of train_pipeline (line 272, executed first) or the framework wandb
logger initialization inside init_tb_loggers (line 36) runs. -/
def wandb_session_started (has_wandb_project : Bool) (name : String) : Bool :=
  pipeline_wandb_init_called has_wandb_project ||
    init_wandb_logger_called has_wandb_project name

/-! ## Helper lemmas -/

theorem toList_append (s t : String) : (s ++ t).toList = s.toList ++ t.toList := by
  cases s
  cases t
  rfl

theorem isHeadSegment_append_self : ∀ (p t : List Char), isHeadSegment p (p ++ t) = true := by
  intro p
  induction p with
  | nil => intro t; rfl
  | cons a as ih => intro t; simp [isHeadSegment, ih]

theorem isHeadSegment_hasSegment (p s : List Char)
    (h : isHeadSegment p s = true) : hasSegment p s = true := by
  cases s with
  | nil =>
    cases p with
    | nil => rfl
    | cons a as => simp [isHeadSegment] at h
  | cons c cs => simp [hasSegment, h]

theorem pyContains_debug_underscore (name : String) :
    pyContains (("debug_") ++ name) ("debug") = true := by
  have h1 : (("debug_") ++ name).toList = ("debug").toList ++ ('_' :: name.toList) := by
    rw [toList_append]
    rfl
  unfold pyContains
  rw [h1]
  exact isHeadSegment_hasSegment _ _ (isHeadSegment_append_self _ _)

theorem contains_debug_after_rename (debug : Bool) (name : String)
    (h : debug = true ∨ pyContains name ("debug") = true) :
    pyContains (applyDebugName debug name) ("debug") = true := by
  unfold applyDebugName
  cases hs : pyStartsWith name ("debug") with
  | true =>
    have hc : pyContains name ("debug") = true := by
      unfold pyStartsWith at hs
      unfold pyContains
      exact isHeadSegment_hasSegment _ _ hs
    simp [hs, hc]
  | false =>
    cases debug with
    | false =>
      simp only [Bool.false_and, Bool.false_eq_true, if_false]
      rcases h with h | h
      · exact absurd h (by simp)
      · exact h
    | true =>
      simp only [hs, Bool.not_false, Bool.and_true, if_true]
      exact pyContains_debug_underscore name

theorem runEpochIters_opt_bound (b : Nat) :
    ∀ cur total, (runEpochIters b cur total).2 + cur ≤ total ∨
      (runEpochIters b cur total).2 = 0 := by
  induction b with
  | zero => intro cur total; right; rfl
  | succ b ih =>
    intro cur total
    unfold runEpochIters
    by_cases h : cur + 1 > total
    · simp [h]
    · have hrec := ih (cur + 1) total
      simp only [h, if_false]
      simp only [gt_iff_lt, not_lt] at h
      omega

theorem runEpochIters_cur_ge (b : Nat) :
    ∀ cur total, cur + (runEpochIters b cur total).2 ≤ (runEpochIters b cur total).1 := by
  induction b with
  | zero => intro cur total; simp [runEpochIters]
  | succ b ih =>
    intro cur total
    unfold runEpochIters
    by_cases h : cur + 1 > total
    · simp [h]
    · have hrec := ih (cur + 1) total
      simp only [h, if_false]
      omega

theorem runEpochs_boundaries (e : Nat) :
    ∀ k cur total, (runEpochs e k cur total).2.1 = e := by
  induction e with
  | zero => intro k cur total; rfl
  | succ e ih =>
    intro k cur total
    unfold runEpochs
    simp [ih]

theorem runEpochs_opt_le (e : Nat) :
    ∀ k cur total, cur + (runEpochs e k cur total).2.2 ≤ total ∨
      (runEpochs e k cur total).2.2 = 0 := by
  induction e with
  | zero => intro k cur total; right; rfl
  | succ e ih =>
    intro k cur total
    unfold runEpochs
    have h1 := runEpochIters_opt_bound k cur total
    have h2 := runEpochIters_cur_ge k cur total
    have h3 := ih k (runEpochIters k cur total).1 total
    simp only
    omega

theorem foldl_max_le (l : List Nat) :
    ∀ a, a ≤ l.foldl max a ∧ ∀ x ∈ l, x ≤ l.foldl max a := by
  induction l with
  | nil =>
    intro a
    exact ⟨Nat.le_refl a, by intro x hx; cases hx⟩
  | cons y ys ih =>
    intro a
    have h := ih (max a y)
    simp only [List.foldl_cons]
    refine ⟨le_trans (le_max_left a y) h.1, ?_⟩
    intro x hx
    rcases List.mem_cons.mp hx with rfl | hx
    · exact le_trans (le_max_right a x) h.1
    · exact h.2 x hx

theorem foldl_max_mem (l : List Nat) :
    ∀ a, l.foldl max a = a ∨ l.foldl max a ∈ l := by
  induction l with
  | nil => intro a; left; rfl
  | cons y ys ih =>
    intro a
    simp only [List.foldl_cons]
    rcases ih (max a y) with h | h
    · rcases max_choice a y with hm | hm
      · left; rw [h, hm]
      · right; rw [h, hm]; exact List.mem_cons_self y ys
    · right; exact List.mem_cons_of_mem y h

theorem maxState_mem (l : List Nat) (h : l ≠ []) : maxState l ∈ l := by
  unfold maxState
  rcases foldl_max_mem l 0 with h0 | hm
  · cases l with
    | nil => exact absurd rfl h
    | cons y ys =>
      have hy : y ≤ (y :: ys).foldl max 0 :=
        (foldl_max_le (y :: ys) 0).2 y (List.mem_cons_self y ys)
      rw [h0] at hy
      have hy0 : y = 0 := Nat.le_zero.mp hy
      rw [h0, ← hy0]
      exact List.mem_cons_self y ys
  · exact hm

theorem processPhases_all_val (cfg : TrainCfg) :
    ∀ (phases : List String) (st : CTVSt), phases.all valLike = true →
      ∃ st2, processPhases cfg phases st = Except.ok st2 ∧
        st2.train_sampler = st.train_sampler ∧ st2.totals = st.totals := by
  intro phases
  induction phases with
  | nil => intro st _; exact ⟨st, rfl, rfl, rfl⟩
  | cons p rest ih =>
    intro st h
    simp only [List.all_cons, Bool.and_eq_true] at h
    have hval : valLike p = true := h.1
    have hp : ¬ (p = ("train")) := by
      intro hp
      rw [hp] at hval
      exact absurd hval (by decide)
    unfold processPhases
    simp only [hp, if_false, hval, if_true]
    obtain ⟨st2, heq, h1, h2⟩ :=
      ih { st with val_loaders := st.val_loaders ++ [p] } h.2
    exact ⟨st2, heq, h1, h2⟩

/-! ## The claims -/

/-- Claim C1, counterexample: with one train image, enlarge ratio 1, batch
size 1, world size 1 and total_iter 2, the per-epoch iteration count is 1 and
the loop performs 3 epoch boundaries, not ceil(2/1) = 2: the for loop ranges
over range(0, total_epochs + 1) and the inner break never exits it. -/
theorem c1_counterexample :
    ¬ ((trainLoopFresh ⟨1, 1, 1, 1, 2⟩).2.1 = total_epochs ⟨1, 1, 1, 1, 2⟩) := by
  decide

/-- Claim C1 (amended): for every fresh run, the training loop performs
exactly ceil(total_iter / num_iter_per_epoch) + 1 epoch boundaries, each a
sampler reseed plus prefetcher reset, and calls model.optimize_parameters at
most total_iter times. -/
theorem c1_loop_boundaries_and_steps (cfg : TrainCfg) :
    (trainLoopFresh cfg).2.1 = total_epochs cfg + 1 ∧
    (trainLoopFresh cfg).2.2 ≤ cfg.total_iter := by
  constructor
  · exact runEpochs_boundaries _ _ _ _
  · have h := runEpochs_opt_le (total_epochs cfg + 1) (num_iter_per_epoch cfg) 0 cfg.total_iter
    unfold trainLoopFresh
    omega

/-- Claim C2: for every nonempty collection of state files in the scanned
training-states directory, auto resume selects and loads exactly the file
whose numeric prefix is the largest. -/
theorem c2_resume_selects_largest (name : String) (states : List Nat)
    (explicit : Option String) (h : states ≠ []) :
    ∃ m, m ∈ states ∧ (∀ x ∈ states, x ≤ m) ∧
      load_resume_state_path name true true states explicit
        = some (ospJoin [resumeScanDirOfName name, stateFileName m]) := by
  refine ⟨maxState states, maxState_mem states h,
    fun x hx => (foldl_max_le states 0).2 x hx, ?_⟩
  unfold load_resume_state_path
  have hlen : (states.length != 0) = true := by
    cases states with
    | nil => exact absurd rfl h
    | cons y ys => simp
  simp [hlen]

theorem c2_witness :
    ([3, 10, 7] ≠ ([] : List Nat)) ∧
    ∃ m, m ∈ [3, 10, 7] ∧ (∀ x ∈ [3, 10, 7], x ≤ m) ∧
      load_resume_state_path ("exp") true true [3, 10, 7] none
        = some (ospJoin [resumeScanDirOfName ("exp"), stateFileName m]) :=
  ⟨by decide, c2_resume_selects_largest ("exp") [3, 10, 7] none (by decide)⟩

/-- Claim C3 (code bug): the force_yml override path of parse_options calls
the bare name _postprocess_yml_value at line 186, but that helper is neither
imported nor defined anywhere in sweep.py, so every use of the flag, here the
example from the flag help text itself, raises NameError before any value is
coerced or assigned. -/
theorem c3_force_yml_raises_name_error :
    applyForceYmlEntry namesInScopeAtLine186 ("train:ema_decay=0.999")
      = Except.error ("NameError: name _postprocess_yml_value is not defined") := rfl

/-- Claim C4: inside the training loop, on every executed iteration, that is
whenever the incremented counter has not passed total_iters, the logging,
checkpoint and validation side effects fire if and only if the counter is
divisible by the corresponding configured frequency. -/
theorem c4_side_effects_iff_mod (total_iters pf sf vf current_iter : Nat)
    (_hpf : 0 < pf) (_hsf : 0 < sf) (_hvf : 0 < vf)
    (hin : current_iter ≤ total_iters) :
    ∃ e, loopIterBody total_iters pf sf vf true current_iter = some e ∧
      (e.logged = true ↔ current_iter % pf = 0) ∧
      (e.saved_checkpoint = true ↔ current_iter % sf = 0) ∧
      (e.validated = true ↔ current_iter % vf = 0) := by
  unfold loopIterBody
  have hnot : ¬ (current_iter > total_iters) := not_lt.mpr hin
  simp only [hnot, if_false]
  refine ⟨_, rfl, ?_, ?_, ?_⟩ <;> simp

theorem c4_witness :
    (0 < 2 ∧ 0 < 3 ∧ 0 < 4 ∧ 12 ≤ 20) ∧
    ∃ e, loopIterBody 20 2 3 4 true 12 = some e ∧
      (e.logged = true ↔ 12 % 2 = 0) ∧
      (e.saved_checkpoint = true ↔ 12 % 3 = 0) ∧
      (e.validated = true ↔ 12 % 4 = 0) :=
  ⟨by decide,
    c4_side_effects_iff_mod 20 2 3 4 12 (by decide) (by decide) (by decide) (by decide)⟩

/-- Claim C5: on normal exit of the training loop, train_pipeline always
saves a final latest checkpoint, calling model.save with epoch -1 and
current_iter -1, and runs a validation pass over every validation loader
exactly when validation is configured. -/
theorem c5_final_save_and_validation (val_configured : Bool)
    (val_loaders : List String) (tb : Bool) :
    (afterTrainLoop val_configured val_loaders tb).saved_latest = true ∧
    (afterTrainLoop val_configured val_loaders tb).save_epoch_arg = -1 ∧
    (afterTrainLoop val_configured val_loaders tb).save_iter_arg = -1 ∧
    (afterTrainLoop val_configured val_loaders tb).validated_loaders
      = (if val_configured then val_loaders else []) :=
  ⟨rfl, rfl, rfl, rfl⟩

/-- Claim C6: for every run started with the debug flag or whose configured
name contains debug, parse_options forces print_freq to 1,
save_checkpoint_freq to 8, and val_freq to 8 whenever a val section exists,
regardless of the configured values. -/
theorem c6_debug_forces_freqs (debug : Bool) (opt : FreqOpts)
    (h : debug = true ∨ pyContains opt.name ("debug") = true) :
    (parseOptionsDebug debug opt).print_freq = 1 ∧
    (parseOptionsDebug debug opt).save_checkpoint_freq = 8 ∧
    (parseOptionsDebug debug opt).val_freq = opt.val_freq.map (fun _ => 8) := by
  unfold parseOptionsDebug applyDebugOverrides
  have hc := contains_debug_after_rename debug opt.name h
  simp [hc]

theorem c6_witness :
    (true = true ∨ pyContains (("experiment1") : String) ("debug") = true) ∧
    ((parseOptionsDebug true ⟨("experiment1"), some 5000, 100, 5000⟩).print_freq = 1 ∧
     (parseOptionsDebug true ⟨("experiment1"), some 5000, 100, 5000⟩).save_checkpoint_freq = 8 ∧
     (parseOptionsDebug true ⟨("experiment1"), some 5000, 100, 5000⟩).val_freq
       = (some 5000).map (fun _ => 8)) :=
  ⟨Or.inl rfl,
    c6_debug_forces_freqs true ⟨("experiment1"), some 5000, 100, 5000⟩ (Or.inl rfl)⟩

/-- Claim C7, counterexample: the path missing.yml names no existing file in
the empty filesystem, yet yaml_load does not fail: it parses the path string
itself as literal YAML text, yielding a plain scalar. -/
theorem c7_counterexample :
    (([] : List (String × String)).lookup ("missing.yml") = none) ∧
    yaml_load yamlParseModel [] ("missing.yml") = Except.ok ("missing.yml") :=
  ⟨rfl, rfl⟩

/-- Claim C7 (amended): for every input that does not name an existing file,
yaml_load falls back to parsing the input string itself as literal YAML text,
and it fails exactly when that text is malformed YAML. -/
theorem c7_missing_file_parses_text (files : List (String × String)) (f : String)
    (h : files.lookup f = none) :
    yaml_load yamlParseModel files f = yamlParseModel f ∧
    ((∃ e, yaml_load yamlParseModel files f = Except.error e) ↔
      yamlMalformed f = true) := by
  constructor
  · unfold yaml_load
    rw [h]
  · unfold yaml_load
    rw [h]
    unfold yamlParseModel
    cases hm : yamlMalformed f with
    | true => simp
    | false => simp

theorem c7_witness :
    ([(("config.yml"), ("name: x"))].lookup ("[1, 2") = (none : Option String)) ∧
    (yaml_load yamlParseModel [(("config.yml"), ("name: x"))] ("[1, 2")
       = yamlParseModel ("[1, 2") ∧
     ((∃ e, yaml_load yamlParseModel [(("config.yml"), ("name: x"))] ("[1, 2")
        = Except.error e) ↔ yamlMalformed ("[1, 2") = true)) :=
  ⟨rfl, c7_missing_file_parses_text [(("config.yml"), ("name: x"))] ("[1, 2") rfl⟩

/-- Claim C8, counterexample: for the debug run named debug_exp with a wandb
project configured, a wandb session is started anyway, because the wandb.init
call of train_pipeline lines 271-277 has no debug guard. -/
theorem c8_counterexample :
    pyContains ("debug_exp") ("debug") = true ∧
    wandb_session_started true ("debug_exp") = true :=
  ⟨rfl, rfl⟩

/-- Claim C8 (amended): the framework wandb logger of init_tb_loggers is
initialized only when a project is configured and the run is not a debug run,
but train_pipeline additionally calls wandb.init whenever a project is
configured, so a wandb session is started exactly when a wandb project is
configured, debug or not. -/
theorem c8_session_iff_project (has_project : Bool) (name : String) :
    wandb_session_started has_project name = has_project ∧
    init_wandb_logger_called has_project name
      = (has_project && !(pyContains name ("debug"))) := by
  constructor
  · cases has_project <;>
      simp [wandb_session_started, pipeline_wandb_init_called, init_wandb_logger_called]
  · rfl

/-- Claim C9: for every datasets mapping whose phases are all val-like, so in
particular without a train phase, create_train_val_dataloader fails with
UnboundLocalError at the return statement, where train_sampler was never
bound, instead of returning a result with a missing train loader. -/
theorem c9_no_train_phase_fails (cfg : TrainCfg) (phases : List String)
    (h : phases.all valLike = true) :
    create_train_val_dataloader cfg phases
      = Except.error
          ("UnboundLocalError: local variable train_sampler referenced before assignment") := by
  obtain ⟨st2, heq, hs, _⟩ := processPhases_all_val cfg phases initCTVSt h
  obtain ⟨tl, ts, tot, vl⟩ := st2
  simp only [initCTVSt] at hs
  subst hs
  unfold create_train_val_dataloader
  rw [heq]

theorem c9_witness :
    ((["val", "val_2"].all valLike) = true) ∧
    create_train_val_dataloader ⟨8, 1, 2, 1, 100⟩ ["val", "val_2"]
      = Except.error
          ("UnboundLocalError: local variable train_sampler referenced before assignment") :=
  ⟨by decide, c9_no_train_phase_fails ⟨8, 1, 2, 1, 100⟩ ["val", "val_2"] (by decide)⟩

/-- Claim C10: for every filesystem state, collision fuel, root path and
experiment name, the directory scanned by load_resume_state under auto resume
is the fixed relative path experiments/name/training_states built from the
configured name, independent of the collision-suffixed experiments root; the
suffixed root is what the training_states output path of the run is built
from instead. -/
theorem c10_resume_scan_ignores_suffix (existsFn : String → Bool) (fuel : Nat)
    (root_path name : String) :
    resumeScanDir (trainPipelinePaths existsFn fuel root_path name)
      = ospJoin [("experiments"), name, ("training_states")] ∧
    (trainPipelinePaths existsFn fuel root_path name).training_states
      = ospJoin [collisionRoot existsFn (ospJoin [root_path, ("experiments"), name]) 0 fuel,
          ("training_states")] :=
  ⟨rfl, rfl⟩

end Sweep
